import Mathlib

/-!
Verification development for the Stori musicgen-service asynchronous job
orchestration subsystem.

The definitions below are a shallow embedding of the Python source:
  app/api/routes/generation.py   (routes, in-memory job registry, background unit)
  app/api/models/requests.py     (GenerationRequest field constraints)
  app/services/generation_service.py (GenerationService.generate_music / save_audio)
  app/core/musicgen_engine.py    (MusicGenEngine.generate_music, _simulate_progress,
                                  _generate_audio, MockMusicGenModel)

Python floats are modelled by rationals; timestamps (datetime.utcnow()) by natural
numbers supplied explicitly; the in-memory dict `jobs` (insertion ordered in
CPython) by a list of records in insertion order.  File-system effects are
modelled by explicit outcome parameters (`fileExists`, `BackgroundEnv`).
-/

set_option maxHeartbeats 1000000

namespace Stori

/-- Embeds `GenerationStatus` from app/api/models/responses.py (a str Enum). -/
inductive GenerationStatus where
  | queued
  | processing
  | completed
  | failed
  | cancelled
deriving DecidableEq, Repr

/-- Embeds `GenerationRequest` from app/api/models/requests.py: the raw field
values of a submission (defaults as in the pydantic model).  Validation of the
declared `Field` ranges is `validateRequest` below. -/
structure GenerationRequest where
  prompt : String
  duration : ℚ := 30
  temperature : ℚ := 1
  top_k : ℤ := 250
  top_p : ℚ := 0
  cfg_coef : ℚ := 3
  seed : Option ℕ := none
deriving DecidableEq, Repr

/-- Embeds the pydantic `Field` constraints and the `validate_prompt` validator of
`GenerationRequest` (requests.py lines 11-62): prompt length in [1,500] and
non-blank after strip; duration in [5,120]; temperature in [0.1,2]; top_k in
[1,1000]; top_p in [0,1]; cfg_coef in [1,10]; seed, when present, in
[0, 2^32 - 1] (the lower bound is automatic for ℕ). -/
def validateRequest (r : GenerationRequest) : Bool :=
  (1 ≤ r.prompt.length && r.prompt.length ≤ 500 && !r.prompt.trim.isEmpty) &&
  (5 ≤ r.duration && r.duration ≤ 120) &&
  (1/10 ≤ r.temperature && r.temperature ≤ 2) &&
  (1 ≤ r.top_k && r.top_k ≤ 1000) &&
  (0 ≤ r.top_p && r.top_p ≤ 1) &&
  (1 ≤ r.cfg_coef && r.cfg_coef ≤ 10) &&
  (match r.seed with
   | none => true
   | some s => s ≤ 2 ^ 32 - 1)

/-- Embeds one entry of the module-level `jobs` dict in generation.py: the keys
written by `generate_music`, `process_generation_job` and
`cancel_generation_job`.  Keys that a given state has not written are `none`. -/
structure JobRecord where
  job_id : String
  status : GenerationStatus
  prompt : String
  duration : ℚ
  temperature : ℚ
  top_k : ℤ
  top_p : ℚ
  cfg_coef : ℚ
  created_at : ℕ
  progress : ℚ
  message : String
  started_at : Option ℕ := none
  completed_at : Option ℕ := none
  error_message : Option String := none
  audio_path : Option String := none
  audio_url : Option String := none
  file_size : Option ℕ := none
  actual_duration : Option ℚ := none
deriving DecidableEq, Repr

/-- The registry: the `jobs` dict, as its values in insertion order. -/
def JobRegistry := List JobRecord

/-- Look-up of `jobs[job_id]` (`job_id in jobs` / `jobs[job_id]`). -/
def findJob (st : List JobRecord) (job_id : String) : Option JobRecord :=
  st.find? (fun j => j.job_id == job_id)

/-- Embeds `jobs[job_id].update({...})`: apply a record mutation to the entry with the
given id, leaving all other entries unchanged. -/
def updateJob (st : List JobRecord) (job_id : String) (f : JobRecord → JobRecord) :
    List JobRecord :=
  st.map (fun j => if j.job_id == job_id then f j else j)

/-- The error taxonomy of the spec, as surfaced by the routes: HTTP 404 is
`NotFound`, HTTP 400 on a state-dependent rejection is `InvalidState`, and the
pydantic HTTP 422 rejection of an out-of-range request is `ValidationError`. -/
inductive ApiError where
  | notFound
  | invalidState
  | validationError
deriving DecidableEq, Repr

/-- Embeds the job-record creation of `generate_music` (generation.py lines
59-71): status queued, progress 0.0, message "Job queued for processing",
request fields copied (the pydantic validator stores the stripped prompt). -/
def mkQueuedRecord (r : GenerationRequest) (job_id : String) (now : ℕ) : JobRecord :=
  { job_id := job_id
    status := .queued
    prompt := r.prompt.trim
    duration := r.duration
    temperature := r.temperature
    top_k := r.top_k
    top_p := r.top_p
    cfg_coef := r.cfg_coef
    created_at := now
    progress := 0
    message := "Job queued for processing" }

/-- Embeds submission: pydantic validates `GenerationRequest` before the
`generate_music` handler runs; an out-of-range request is rejected with 422
(`ValidationError`) and the handler body — which creates the job record —
never executes.  On success the new queued record is appended to `jobs`.
Returns the response alongside the registry after the call. -/
def submit_job (st : List JobRecord) (raw : GenerationRequest) (newId : String)
    (now : ℕ) : Except ApiError String × List JobRecord :=
  if validateRequest raw then
    (.ok newId, st ++ [mkQueuedRecord raw newId now])
  else
    (.error .validationError, st)

/-- Embeds `cancel_generation_job` (generation.py lines 194-219): 404 when the
id is unknown; 400 (`InvalidState`) when the status is COMPLETED or FAILED —
and only then; otherwise the record is overwritten with status CANCELLED,
message "Job cancelled by user" and a fresh `completed_at`. -/
def cancel_generation_job (st : List JobRecord) (job_id : String) (now : ℕ) :
    Except ApiError Unit × List JobRecord :=
  match findJob st job_id with
  | none => (.error .notFound, st)
  | some j =>
      if j.status = .completed ∨ j.status = .failed then
        (.error .invalidState, st)
      else
        (.ok (), updateJob st job_id (fun r =>
          { r with status := .cancelled
                   message := "Job cancelled by user"
                   completed_at := some now }))

/-- Embeds `download_generated_audio` (generation.py lines 122-148): 404 when
the id is unknown; 400 (`InvalidState`) when the status is not COMPLETED; 404
when the record has no `audio_path`, the path is falsy (empty), or the file
does not exist; otherwise the artifact file is returned. -/
def download_generated_audio (st : List JobRecord) (fileExists : String → Bool)
    (job_id : String) : Except ApiError String :=
  match findJob st job_id with
  | none => .error .notFound
  | some j =>
      if j.status = .completed then
        match j.audio_path with
        | none => .error .notFound
        | some p => if p = "" ∨ fileExists p = false then .error .notFound else .ok p
      else .error .invalidState

/-- One summary entry returned by `list_jobs` (generation.py lines 234-240). -/
structure JobSummary where
  job_id : String
  status : GenerationStatus
  prompt : String
  created_at : ℕ
  duration : Option ℚ
deriving DecidableEq, Repr

/-- The prompt truncation in the summary: first 100 characters plus "..." when
longer than 100. -/
def truncatePrompt (p : String) : String :=
  if p.length > 100 then (p.take 100).push '.' |>.push '.' |>.push '.' else p

/-- Builds one summary dict from a job record. -/
def toSummary (j : JobRecord) : JobSummary :=
  { job_id := j.job_id
    status := j.status
    prompt := truncatePrompt j.prompt
    created_at := j.created_at
    duration := some j.duration }

/-- The filter of `list_jobs`: `if status and job_data["status"] != status:
continue` — entries are kept when no (truthy) filter is given or the status
matches. -/
def recordMatches (filt : Option GenerationStatus) (j : JobRecord) : Bool :=
  match filt with
  | none => true
  | some s => j.status == s

/-- The comparison of the summary sort: `sort(key=created_at, reverse=True)`,
newest first. -/
def newestFirst (a b : JobSummary) : Prop := b.created_at ≤ a.created_at

instance : DecidableRel newestFirst := fun _ _ => Nat.decLe _ _

instance : IsTotal JobSummary newestFirst :=
  ⟨fun a b => le_total b.created_at a.created_at⟩

instance : IsTrans JobSummary newestFirst :=
  ⟨fun _ _ _ hab hbc => le_trans hbc hab⟩

/-- Embeds `list_jobs` (generation.py lines 222-248): filter the registry
values by the optional status filter, build summaries, sort newest-first by
`created_at` (Python's stable sort is modelled by the stable insertion sort),
return the first `limit` entries together with the pre-truncation count. -/
def list_jobs (st : List JobRecord) (limit : ℕ) (filt : Option GenerationStatus) :
    List JobSummary × ℕ :=
  ((((st.filter (recordMatches filt)).map toSummary).insertionSort newestFirst).take
      limit,
    ((st.filter (recordMatches filt)).map toSummary).length)

/-! ## Engine: progress reporter, seeding, audio generation -/

/-- Embeds `steps = 20` from `MusicGenEngine._simulate_progress`. -/
def reporterSteps : ℕ := 20

/-- Embeds `start_progress = 0.3` from `_simulate_progress`. -/
def reporterStart : ℚ := 3/10

/-- Embeds `end_progress = 0.75` from `_simulate_progress`. -/
def reporterEnd : ℚ := 3/4

/-- Embeds `estimated_time = max(duration * 2, 10)` from `_simulate_progress`. -/
def estimatedTime (duration : ℚ) : ℚ := max (duration * 2) 10

/-- The i-th emitted progress value of `_simulate_progress` (0-based, i < 20):
`start_progress + (end_progress - start_progress) * (i + 1) / steps`. -/
def reporterProgress (i : ℕ) : ℚ :=
  reporterStart + (reporterEnd - reporterStart) * (i + 1) / reporterSteps

/-- The elapsed time at which the i-th value is emitted: the loop sleeps
`estimated_time / steps` before each emission. -/
def emissionTime (duration : ℚ) (i : ℕ) : ℚ :=
  (i + 1) * (estimatedTime duration / reporterSteps)

/-- The message set by the progress callback `update_progress`
(generation.py line 281): Python's int() truncates the positive float. -/
def progressMessage (p : ℚ) : String :=
  "AI generating music... " ++ toString (Int.toNat ⌊p * 100⌋) ++ "%"

/-- What random-number configuration `MusicGenEngine._generate_audio` (lines
243-268) runs the model under: with `seed is not None` it seeds every RNG with
that value (fixed); with `seed=None` it performs no seeding at all — the
time-derived `random_seed` there is only logged, never applied — so generation
runs on the ambient RNG state. -/
inductive EffectiveSeed where
  | fixed (s : ℕ)
  | ambient
deriving DecidableEq, Repr

/-- The seeding branch of `_generate_audio`. -/
def effectiveSeed (seed : Option ℕ) : EffectiveSeed :=
  match seed with
  | some s => .fixed s
  | none => .ambient

/-- The keyword arguments `MusicGenEngine.generate_music` receives (and
forwards to `_generate_audio`). -/
structure EngineCallArgs where
  prompt : String
  duration : ℚ
  temperature : ℚ
  top_k : ℤ
  top_p : ℚ
  cfg_coef : ℚ
  seed : Option ℕ
deriving DecidableEq, Repr

/-- Embeds the engine invocation inside `GenerationService.generate_music`
(generation_service.py lines 71-79): the service method's parameter list has no
seed parameter, and its call to `self.engine.generate_music(...)` passes no
`seed=` keyword, so the engine runs with its default `seed=None`. -/
def serviceGenerateCall (prompt : String) (duration : ℚ) (temperature : ℚ)
    (top_k : ℤ) (top_p : ℚ) (cfg_coef : ℚ) : EngineCallArgs :=
  { prompt := prompt
    duration := duration
    temperature := temperature
    top_k := top_k
    top_p := top_p
    cfg_coef := cfg_coef
    seed := none }

/-- Embeds the service invocation inside `process_generation_job`
(generation.py lines 287-295): the keyword arguments are the request's prompt,
duration, temperature, top_k, top_p and cfg_coef — `request.seed` is not among
them. -/
def backgroundEngineCall (req : GenerationRequest) : EngineCallArgs :=
  serviceGenerateCall req.prompt req.duration req.temperature
    req.top_k req.top_p req.cfg_coef

/-- An audio tensor, by its shape and (flattened) sample data. -/
structure AudioTensor where
  shape : List ℕ
  data : List ℚ
deriving DecidableEq, Repr

/-- Embeds `torch.zeros(1, duration_samples)` with
`duration_samples = int(duration * self.sample_rate)`: the silence fallback
`_generate_audio` returns when the model call raises (lines 335-339). -/
def silenceFallback (duration : ℚ) (sample_rate : ℕ) : AudioTensor :=
  { shape := [1, (duration * sample_rate).floor.toNat]
    data := List.replicate ((duration * sample_rate).floor.toNat) 0 }

/-- Embeds the try/except body of `MusicGenEngine._generate_audio`: the model
call's outcome is a parameter; on success its tensor is returned, and ANY
exception is caught and replaced by the silence fallback — `_generate_audio`
never raises out of this block. -/
def generate_audio (modelOutcome : Except String AudioTensor) (duration : ℚ)
    (sample_rate : ℕ) : AudioTensor :=
  match modelOutcome with
  | .ok t => t
  | .error _ => silenceFallback duration sample_rate

/-- The output validation in `GenerationService.generate_music` (lines 81-83):
`audio_tensor is None or len(audio_tensor.shape) == 0` raises
"Generated audio tensor is empty". -/
def tensorIsEmpty (t : AudioTensor) : Bool := t.shape.isEmpty

/-- The `actual_duration` computation of `process_generation_job` (lines
312-318): samples divided by sample rate for 1- and 2-dim tensors (last
dimension for dim 2), the requested duration otherwise. -/
def actualDuration (t : AudioTensor) (sample_rate : ℕ) (requested : ℚ) : ℚ :=
  if t.shape.length = 1 then ((t.shape.headD 0 : ℕ) : ℚ) / (sample_rate : ℚ)
  else if t.shape.length = 2 then ((t.shape.getLastD 0 : ℕ) : ℚ) / (sample_rate : ℚ)
  else requested

/-- The artifact path `generated_audio/{job_id}.wav` (generation.py lines 304-306). -/
def audioPathFor (job_id : String) : String :=
  "generated_audio/" ++ job_id ++ ".wav"

/-- The download URL `/api/v1/download/{job_id}` (generation.py line 327). -/
def audioUrlFor (job_id : String) : String :=
  "/api/v1/download/" ++ job_id

/-! ## The background unit `process_generation_job`

The unit's interaction with the outside world — the model call made inside
`_generate_audio`, the `torchaudio.save` call, the wall clock and the engine's
sample rate — is captured in an environment record.  The unit itself is the
composition of two phases: the registry writes made before/while the
`run_in_executor` inference call is awaited (phase 1: the PROCESSING update,
the 0.3 update, and the progress-callback writes fired by `_simulate_progress`
until the call resolves), and the writes made after it resolves (phase 2:
empty-tensor check, 0.8 update, save, and the terminal COMPLETED/FAILED
update).  A cancellation request is served by the event loop while the
inference call is awaited, i.e. exactly between the two phases. -/

/-- Outcomes of the external effects of one run of the background unit. -/
structure BackgroundEnv where
  modelOutcome : Except String AudioTensor
  saveOutcome : Except String ℕ
  startTime : ℕ
  endTime : ℕ
  sample_rate : ℕ
deriving Repr

/-- The PROCESSING update of `process_generation_job` (lines 263-268). -/
def processingUpdate (startTime : ℕ) (j : JobRecord) : JobRecord :=
  { j with status := .processing
           started_at := some startTime
           message := "Generating music..."
           progress := 1/10 }

/-- The 0.3 "AI model processing prompt..." update (lines 273-276). -/
def startAIUpdate (j : JobRecord) : JobRecord :=
  { j with progress := 3/10, message := "AI model processing prompt..." }

/-- One firing of the `update_progress` callback (lines 279-281), carrying the
i-th reporter value. -/
def callbackUpdate (i : ℕ) (j : JobRecord) : JobRecord :=
  { j with progress := reporterProgress i
           message := progressMessage (reporterProgress i) }

/-- The 0.8 "Saving audio file..." update (lines 300-301). -/
def preSaveUpdate (j : JobRecord) : JobRecord :=
  { j with progress := 8/10, message := "Saving audio file..." }

/-- Phase 1 of `process_generation_job` (lines 262-295): the PROCESSING update
(progress 0.1, `started_at`), the 0.3 "AI model processing prompt..." update,
then `k` firings of the `update_progress` callback driven by
`_simulate_progress` (at most its 20 steps) before the inference call
resolves. -/
def backgroundPhase1 (st : List JobRecord) (job_id : String) (env : BackgroundEnv)
    (k : ℕ) : List JobRecord :=
  (List.range (min k reporterSteps)).foldl
    (fun s i => updateJob s job_id (callbackUpdate i))
    (updateJob (updateJob st job_id (processingUpdate env.startTime)) job_id
      startAIUpdate)

/-- The terminal FAILED update of the except handler (lines 338-344). -/
def failedUpdate (endTime : ℕ) (err : String) (j : JobRecord) : JobRecord :=
  { j with status := .failed
           completed_at := some endTime
           message := "Generation failed"
           error_message := some err
           progress := 0 }

/-- The terminal COMPLETED update (lines 321-330). -/
def completedUpdate (job_id : String) (endTime : ℕ) (file_size : ℕ)
    (actual_duration : ℚ) (j : JobRecord) : JobRecord :=
  { j with status := .completed
           completed_at := some endTime
           message := "Generation completed successfully"
           progress := 1
           audio_path := some (audioPathFor job_id)
           audio_url := some (audioUrlFor job_id)
           file_size := some file_size
           actual_duration := some actual_duration }

/-- Phase 2 of `process_generation_job` (lines 297-344), entered when the
inference call resolves: `_generate_audio` yields its tensor (silence if the
model call raised); the service's empty-tensor check, the save step, or success
then drive the record to FAILED or COMPLETED.  None of these updates inspects
the record's current status. -/
def backgroundPhase2 (st : List JobRecord) (job_id : String)
    (req : GenerationRequest) (env : BackgroundEnv) : List JobRecord :=
  if tensorIsEmpty (generate_audio env.modelOutcome req.duration env.sample_rate) then
    updateJob st job_id (failedUpdate env.endTime "Generated audio tensor is empty")
  else
    match env.saveOutcome with
    | .error e =>
        updateJob (updateJob st job_id preSaveUpdate) job_id
          (failedUpdate env.endTime e)
    | .ok file_size =>
        updateJob (updateJob st job_id preSaveUpdate) job_id
          (completedUpdate job_id env.endTime file_size
            (actualDuration (generate_audio env.modelOutcome req.duration env.sample_rate)
              env.sample_rate req.duration))

/-- The whole background unit, with no interleaved cancellation. -/
def process_generation_job (st : List JobRecord) (job_id : String)
    (req : GenerationRequest) (env : BackgroundEnv) (k : ℕ) : List JobRecord :=
  backgroundPhase2 (backgroundPhase1 st job_id env k) job_id req env

/-- The ordered sequence of values the orchestration writes to
`jobs[job_id]["progress"]` on a successful run: 0.0 at creation, 0.1 at
dispatch, 0.3 before the inference call, the `k ≤ 20` reporter values emitted
while it runs, 0.8 before the save, and 1.0 in the COMPLETED update. -/
def successProgressWrites (k : ℕ) : List ℚ :=
  [0, 1/10, 3/10] ++ (List.range (min k reporterSteps)).map reporterProgress
    ++ [8/10, 1]

/-! ## Helper lemmas -/

/-- Updating the sole entry of a singleton registry applies the mutation. -/
lemma updateJob_singleton (j : JobRecord) (id : String) (f : JobRecord → JobRecord)
    (hid : j.job_id = id) : updateJob [j] id f = [f j] := by
  simp [updateJob, hid]

/-- Folding per-index record mutations over a singleton registry equals the
fold of the mutations on the record, provided each mutation preserves the id. -/
lemma foldl_updateJob_singleton (id : String) (g : ℕ → JobRecord → JobRecord)
    (hg : ∀ i jj, (g i jj).job_id = jj.job_id) :
    ∀ (l : List ℕ) (j : JobRecord), j.job_id = id →
      l.foldl (fun s i => updateJob s id (g i)) [j] =
        [l.foldl (fun jj i => g i jj) j] := by
  intro l
  induction l with
  | nil => intro j _; rfl
  | cons i l ih =>
      intro j hid
      simp only [List.foldl_cons, updateJob_singleton j id (g i) hid]
      exact ih (g i j) (by rw [hg i j, hid])

/-- An invariant preserved by every per-index mutation is preserved by their
fold. -/
lemma foldl_preserves (g : ℕ → JobRecord → JobRecord) (P : JobRecord → Prop)
    (hg : ∀ i j, P j → P (g i j)) :
    ∀ (l : List ℕ) (j : JobRecord), P j → P (l.foldl (fun jj i => g i jj) j) := by
  intro l
  induction l with
  | nil => intro j h; exact h
  | cons i l ih => intro j h; exact ih (g i j) (hg i j h)

/-- Phase 1 on a singleton registry: the record is driven to PROCESSING, and
its id, `audio_path` and `error_message` are untouched by any phase-1 write. -/
lemma backgroundPhase1_singleton (j0 : JobRecord) (id : String)
    (env : BackgroundEnv) (k : ℕ) (hid : j0.job_id = id) :
    ∃ p, backgroundPhase1 [j0] id env k = [p] ∧ p.job_id = id ∧
      p.status = .processing ∧ p.audio_path = j0.audio_path ∧
      p.error_message = j0.error_message := by
  unfold backgroundPhase1
  rw [updateJob_singleton _ _ _ hid,
    updateJob_singleton (processingUpdate env.startTime j0) id startAIUpdate hid,
    foldl_updateJob_singleton id callbackUpdate (fun _ _ => rfl)
      (List.range (min k reporterSteps))
      (startAIUpdate (processingUpdate env.startTime j0)) hid]
  refine ⟨_, rfl, ?_⟩
  exact foldl_preserves callbackUpdate
    (fun j => j.job_id = id ∧ j.status = .processing ∧
      j.audio_path = j0.audio_path ∧ j.error_message = j0.error_message)
    (fun _ _ h => h) _ _ ⟨hid, rfl, rfl, rfl⟩

/-! ## Claim C1 -/

/-- The request of the spec's determinism scenario: prompt "simple test tone",
duration 5.0, seed 12345 (the remaining fields at their documented defaults). -/
def c1Request : GenerationRequest :=
  { prompt := "simple test tone", duration := 5, seed := some 12345 }

/-- Claim C1: the seed supplied in the request is claimed to be the seed
applied to the inference call.  Evaluating the embedded call chain at the
spec's own determinism scenario: `process_generation_job` forwards the request
to `GenerationService.generate_music`, whose parameter list has no seed, so the
engine receives `seed=None` and `_generate_audio` performs no seeding at all —
the explicit seed 12345 never reaches the inference call, and the engine call
is independent of the request's seed field altogether. -/
theorem C1_seed_dropped :
    c1Request.seed = some 12345 ∧
    (backgroundEngineCall c1Request).seed = none ∧
    effectiveSeed (backgroundEngineCall c1Request).seed = .ambient ∧
    effectiveSeed (backgroundEngineCall c1Request).seed ≠ .fixed 12345 ∧
    ∀ (r : GenerationRequest) (s : Option ℕ),
      backgroundEngineCall { r with seed := s } = backgroundEngineCall r := by
  refine ⟨rfl, rfl, rfl, by decide, fun r s => rfl⟩

/-! ## Claim C3 -/

/-- A job record already cancelled (at time 2). -/
def c3Job : JobRecord :=
  { job_id := "gen_c3"
    status := .cancelled
    prompt := "ambient pad"
    duration := 5
    temperature := 1
    top_k := 250
    top_p := 0
    cfg_coef := 3
    created_at := 0
    progress := 0
    message := "Job cancelled by user"
    completed_at := some 2 }

/-- Claim C3 counterexample: cancelling an already-cancelled job (a terminal
status) does not fail with `InvalidState` — it succeeds, and it mutates the
record, refreshing `completed_at` from 2 to the new wall-clock time 9. -/
theorem C3_cancel_cancelled_mutates :
    (cancel_generation_job [c3Job] "gen_c3" 9).1 = .ok () ∧
    (cancel_generation_job [c3Job] "gen_c3" 9).1 ≠ .error .invalidState ∧
    ((cancel_generation_job [c3Job] "gen_c3" 9).2.map (fun j => j.completed_at)) =
      [some 9] ∧
    c3Job.completed_at = some 2 := by
  refine ⟨rfl, ?_, rfl, rfl⟩
  intro h
  rw [show (cancel_generation_job [c3Job] "gen_c3" 9).1 = Except.ok () from rfl] at h
  exact Except.noConfusion h

/-- Claim C3 amended: `cancel_job` fails with `InvalidState` and leaves the
registry unchanged exactly when the job's status is `completed` or `failed`;
on a `cancelled` job (in particular a second cancellation) it succeeds again,
re-applying the cancel mutation, which refreshes `message` and
`completed_at`. -/
theorem C3_amended (st : List JobRecord) (id : String) (now : ℕ) (j : JobRecord)
    (hfind : findJob st id = some j) :
    ((j.status = .completed ∨ j.status = .failed) →
       cancel_generation_job st id now = (.error .invalidState, st)) ∧
    (j.status = .cancelled →
       (cancel_generation_job st id now).1 = .ok () ∧
       (cancel_generation_job st id now).2 =
         updateJob st id (fun r =>
           { r with status := .cancelled
                    message := "Job cancelled by user"
                    completed_at := some now })) := by
  constructor
  · intro hterm
    simp only [cancel_generation_job, hfind]
    rw [if_pos hterm]
  · intro hc
    have hnot : ¬(j.status = .completed ∨ j.status = .failed) := by
      rw [hc]; rintro (h | h) <;> exact GenerationStatus.noConfusion h
    simp only [cancel_generation_job, hfind]
    rw [if_neg hnot]
    exact ⟨rfl, rfl⟩

/-- Claim C3 amended, witnessed on a concrete registry holding one completed
job: cancellation is rejected with `InvalidState` and the registry is
returned unchanged. -/
theorem C3_amended_witness :
    cancel_generation_job [{ c3Job with status := .completed }] "gen_c3" 9 =
      (.error .invalidState, [{ c3Job with status := .completed }]) := by
  have h := C3_amended [{ c3Job with status := .completed }] "gen_c3" 9
    { c3Job with status := .completed } rfl
  exact h.1 (Or.inl rfl)

/-! ## Claim C2 -/

/-- A valid request used by the concrete scenarios. -/
def c2Req : GenerationRequest := { prompt := "ambient pad", duration := 5 }

/-- A well-formed audio tensor as returned by a successful model call. -/
def c2Tensor : AudioTensor := { shape := [1, 50], data := List.replicate 50 0 }

/-- A run in which the model call and the save both succeed. -/
def c2Env : BackgroundEnv :=
  { modelOutcome := .ok c2Tensor
    saveOutcome := .ok 220544
    startTime := 1
    endTime := 3
    sample_rate := 10 }

/-- The registry right after submission of the scenario's job. -/
def c2St0 : List JobRecord := [mkQueuedRecord c2Req "gen_a" 0]

/-- The registry while the inference call is in flight (the background unit's
phase-1 writes applied; the cancellation request is served by the event loop
at this await point). -/
def c2StMid : List JobRecord := backgroundPhase1 c2St0 "gen_a" c2Env 0

/-- The registry after the successful cancellation. -/
def c2StCancelled : List JobRecord := (cancel_generation_job c2StMid "gen_a" 2).2

/-- The registry after the inference call resolves and the background unit's
phase-2 writes run. -/
def c2StFinal : List JobRecord := backgroundPhase2 c2StCancelled "gen_a" c2Req c2Env

/-- Claim C2 counterexample: `cancel_job` succeeds on the processing job and
the record becomes `cancelled` — a terminal status — yet when the in-flight
inference call resolves, the background unit overwrites the cancelled record
with `completed` and attaches result metadata (`audio_path`, `file_size`),
because none of its writes inspects the record's current status. -/
theorem C2_cancelled_overwritten :
    (cancel_generation_job c2StMid "gen_a" 2).1 = .ok () ∧
    (findJob c2StCancelled "gen_a").map (fun j => j.status) = some .cancelled ∧
    (findJob c2StFinal "gen_a").map (fun j => j.status) = some .completed ∧
    (findJob c2StFinal "gen_a").map (fun j => j.audio_path) =
      some (some "generated_audio/gen_a.wav") ∧
    (findJob c2StFinal "gen_a").map (fun j => j.file_size) = some (some 220544) :=
  ⟨rfl, rfl, rfl, rfl, rfl⟩

/-- Claim C2 amended: jobs whose status is `completed` or `failed` are indeed
protected — `cancel_job` rejects them with `InvalidState` and leaves the
registry unchanged — but terminality is not enforced against the background
unit: when a job is cancelled while its inference call is in flight, the
unit's phase-2 writes, none of which inspects the current status, overwrite
the cancelled record — on success to `completed` with result metadata
attached. -/
theorem C2_amended (st : List JobRecord) (id : String) (now : ℕ)
    (p : JobRecord) (req : GenerationRequest) (env : BackgroundEnv) (n : ℕ) :
    (∀ j, findJob st id = some j → j.status = .completed ∨ j.status = .failed →
       cancel_generation_job st id now = (.error .invalidState, st)) ∧
    (p.status = .cancelled → p.job_id = id → env.saveOutcome = .ok n →
       tensorIsEmpty (generate_audio env.modelOutcome req.duration env.sample_rate)
           = false →
       ∃ jf, backgroundPhase2 [p] id req env = [jf] ∧ jf.status = .completed ∧
         jf.audio_path = some (audioPathFor id) ∧ jf.file_size = some n) := by
  constructor
  · intro j hfind hterm
    simp only [cancel_generation_job, hfind]
    rw [if_pos hterm]
  · intro _hc hid hsave hne
    have h2 : backgroundPhase2 [p] id req env =
        [completedUpdate id env.endTime n
          (actualDuration (generate_audio env.modelOutcome req.duration env.sample_rate)
            env.sample_rate req.duration) (preSaveUpdate p)] := by
      simp only [backgroundPhase2, hne, hsave]
      rw [updateJob_singleton p id preSaveUpdate hid,
        updateJob_singleton (preSaveUpdate p) id _ hid]
      rfl
    exact ⟨_, h2, rfl, rfl, rfl⟩

/-- Claim C2 amended, witnessed: a failed job's cancellation is rejected and
mutates nothing, while a cancelled record in a singleton registry is driven to
`completed` with result metadata by the resolving background unit. -/
theorem C2_amended_witness :
    (cancel_generation_job [{ c3Job with status := .failed }] "gen_c3" 9 =
      (.error .invalidState, [{ c3Job with status := .failed }])) ∧
    ∃ jf, backgroundPhase2 [{ c3Job with job_id := "gen_w2" }] "gen_w2" c2Req c2Env
        = [jf] ∧ jf.status = .completed ∧
      jf.audio_path = some (audioPathFor "gen_w2") ∧ jf.file_size = some 220544 := by
  constructor
  · exact (C2_amended [{ c3Job with status := .failed }] "gen_c3" 9 c3Job c2Req
      c2Env 220544).1 { c3Job with status := .failed } rfl (Or.inr rfl)
  · exact (C2_amended [{ c3Job with job_id := "gen_w2" }] "gen_w2" 9
      { c3Job with job_id := "gen_w2" } c2Req c2Env 220544).2 rfl rfl rfl rfl

/-! ## Claim C4 -/

/-- Claim C4 amended: a persistence failure or an empty generated tensor does
transition the job to `failed` with a descriptive message, without referencing
any artifact, and without the failure escaping the unit; but an error raised
by the model call inside `_generate_audio` is swallowed there and replaced by
a silent buffer of the requested length, so the job does NOT transition to
`failed` — it completes normally, referencing the silent artifact. -/
theorem C4_amended (j0 : JobRecord) (req : GenerationRequest)
    (env : BackgroundEnv) (k : ℕ) (hpath : j0.audio_path = none)
    (herr : j0.error_message = none) :
    (∀ e, env.saveOutcome = .error e →
       tensorIsEmpty (generate_audio env.modelOutcome req.duration env.sample_rate)
           = false →
       ∃ jf, process_generation_job [j0] j0.job_id req env k = [jf] ∧
         jf.status = .failed ∧ jf.message = "Generation failed" ∧
         jf.error_message = some e ∧ jf.progress = 0 ∧ jf.audio_path = none) ∧
    (∀ t, env.modelOutcome = .ok t → t.shape = [] →
       ∃ jf, process_generation_job [j0] j0.job_id req env k = [jf] ∧
         jf.status = .failed ∧
         jf.error_message = some "Generated audio tensor is empty" ∧
         jf.audio_path = none) ∧
    (∀ msg n, env.modelOutcome = .error msg → env.saveOutcome = .ok n →
       generate_audio env.modelOutcome req.duration env.sample_rate =
           silenceFallback req.duration env.sample_rate ∧
       ∃ jf, process_generation_job [j0] j0.job_id req env k = [jf] ∧
         jf.status = .completed ∧ jf.error_message = none ∧
         jf.audio_path = some (audioPathFor j0.job_id)) := by
  obtain ⟨p, hp1, hpid, _hpstat, hppath, hperr⟩ :=
    backgroundPhase1_singleton j0 j0.job_id env k rfl
  refine ⟨?_, ?_, ?_⟩
  · intro e hsave hne
    have h2 : process_generation_job [j0] j0.job_id req env k =
        [failedUpdate env.endTime e (preSaveUpdate p)] := by
      unfold process_generation_job
      rw [hp1]
      simp only [backgroundPhase2, hne, hsave]
      rw [updateJob_singleton p j0.job_id preSaveUpdate hpid,
        updateJob_singleton (preSaveUpdate p) j0.job_id _ hpid]
      rfl
    exact ⟨_, h2, rfl, rfl, rfl, rfl, hppath.trans hpath⟩
  · intro t hm hshape
    have hte : tensorIsEmpty (generate_audio env.modelOutcome req.duration
        env.sample_rate) = true := by
      rw [hm]
      simp [generate_audio, tensorIsEmpty, hshape]
    have h2 : process_generation_job [j0] j0.job_id req env k =
        [failedUpdate env.endTime "Generated audio tensor is empty" p] := by
      unfold process_generation_job
      rw [hp1]
      simp only [backgroundPhase2, hte, if_true]
      rw [updateJob_singleton p j0.job_id _ hpid]
    exact ⟨_, h2, rfl, rfl, hppath.trans hpath⟩
  · intro msg n hm hsave
    have hgen : generate_audio env.modelOutcome req.duration env.sample_rate =
        silenceFallback req.duration env.sample_rate := by rw [hm]; rfl
    have hne : tensorIsEmpty (generate_audio env.modelOutcome req.duration
        env.sample_rate) = false := by rw [hgen]; rfl
    have h2 : process_generation_job [j0] j0.job_id req env k =
        [completedUpdate j0.job_id env.endTime n
          (actualDuration (generate_audio env.modelOutcome req.duration env.sample_rate)
            env.sample_rate req.duration) (preSaveUpdate p)] := by
      unfold process_generation_job
      rw [hp1]
      simp only [backgroundPhase2, hne, hsave]
      rw [updateJob_singleton p j0.job_id preSaveUpdate hpid,
        updateJob_singleton (preSaveUpdate p) j0.job_id _ hpid]
      rfl
    exact ⟨hgen, _, h2, rfl, hperr.trans herr, rfl⟩

/-- The scenario job for the inference-failure counterexample. -/
def c4Job : JobRecord := mkQueuedRecord c2Req "gen_c4" 0

/-- A run in which the model call raises and the save succeeds. -/
def c4Env : BackgroundEnv :=
  { modelOutcome := .error "CUDA out of memory"
    saveOutcome := .ok 1044
    startTime := 1
    endTime := 3
    sample_rate := 10 }

/-- Claim C4 counterexample: the inference call raising
"CUDA out of memory" does not fail the job — `_generate_audio` swallows the
error and substitutes silence, the service's output validation passes it, and
the job completes with no error message and a referenced (silent) artifact. -/
theorem C4_inference_error_completes :
    (findJob (process_generation_job [c4Job] "gen_c4" c2Req c4Env 0) "gen_c4").map
        (fun j => j.status) = some .completed ∧
    (findJob (process_generation_job [c4Job] "gen_c4" c2Req c4Env 0) "gen_c4").map
        (fun j => j.error_message) = some none ∧
    (findJob (process_generation_job [c4Job] "gen_c4" c2Req c4Env 0) "gen_c4").map
        (fun j => j.audio_path) = some (some "generated_audio/gen_c4.wav") ∧
    generate_audio c4Env.modelOutcome c2Req.duration c4Env.sample_rate =
      silenceFallback c2Req.duration c4Env.sample_rate :=
  ⟨rfl, rfl, rfl, rfl⟩

/-- A run in which the model call succeeds but the artifact write fails. -/
def c4SaveFailEnv : BackgroundEnv :=
  { modelOutcome := .ok c2Tensor
    saveOutcome := .error "disk full"
    startTime := 1
    endTime := 3
    sample_rate := 10 }

/-- Claim C4 amended, witnessed: a failing save drives the concrete job to
`failed` with the captured message and no referenced artifact. -/
theorem C4_amended_witness :
    ∃ jf, process_generation_job [c4Job] c4Job.job_id c2Req c4SaveFailEnv 0 = [jf] ∧
      jf.status = .failed ∧ jf.message = "Generation failed" ∧
      jf.error_message = some "disk full" ∧ jf.progress = 0 ∧
      jf.audio_path = none :=
  (C4_amended c4Job c2Req c4SaveFailEnv 0 rfl rfl).1 "disk full" rfl rfl

/-! ## Claim C7 -/

/-- Claim C7: an out-of-range request is rejected synchronously with
`ValidationError` before any job record is created: the registry after the
rejected submission is the one before it, and hence every `list_jobs` view of
it (in particular the count) is unchanged. -/
theorem C7_validation (st : List JobRecord) (raw : GenerationRequest)
    (newId : String) (now : ℕ) (limit : ℕ) (filt : Option GenerationStatus)
    (hv : validateRequest raw = false) :
    (submit_job st raw newId now).1 = .error .validationError ∧
    (submit_job st raw newId now).2 = st ∧
    list_jobs (submit_job st raw newId now).2 limit filt =
      list_jobs st limit filt := by
  simp [submit_job, hv]

/-- The spec's invalid-submission scenario: duration 0. -/
def c7BadRequest : GenerationRequest :=
  { prompt := "simple test tone", duration := 0 }

/-- Claim C7 witness: submitting with duration 0 is rejected with
`ValidationError`, no job record is created, and the `list_jobs` view is
unchanged. -/
theorem C7_validation_witness :
    validateRequest c7BadRequest = false ∧
    (submit_job [] c7BadRequest "gen_x" 0).1 = .error .validationError ∧
    (submit_job [] c7BadRequest "gen_x" 0).2 = [] ∧
    list_jobs (submit_job [] c7BadRequest "gen_x" 0).2 50 none =
      list_jobs [] 50 none := by
  have h5 : decide ((5:ℚ) ≤ c7BadRequest.duration) = false := by
    rw [decide_eq_false_iff_not]
    norm_num [c7BadRequest]
  have hv : validateRequest c7BadRequest = false := by
    simp [validateRequest, h5]
  exact ⟨hv, C7_validation [] c7BadRequest "gen_x" 0 50 none hv⟩

/-! ## Claim C5 -/

/-- Claim C5: `list_jobs` is a total function (it never fails); it returns at
most `limit` summaries; every returned summary comes from a registry job
matching the filter; when nothing matches the result is empty; the result is
ordered newest-first by `created_at`; and whenever the matching jobs fit in
the limit, the result is exactly the matching jobs (as summaries). -/
theorem C5_list_jobs (st : List JobRecord) (limit : ℕ)
    (filt : Option GenerationStatus) :
    (list_jobs st limit filt).1.length ≤ limit ∧
    (∀ s ∈ (list_jobs st limit filt).1,
       ∃ j, j ∈ st ∧ recordMatches filt j = true ∧ toSummary j = s) ∧
    (st.filter (recordMatches filt) = [] → (list_jobs st limit filt).1 = []) ∧
    (list_jobs st limit filt).1.Sorted newestFirst ∧
    ((st.filter (recordMatches filt)).length ≤ limit →
       (list_jobs st limit filt).1.Perm
         ((st.filter (recordMatches filt)).map toSummary)) := by
  refine ⟨List.length_take_le _ _, ?_, ?_, ?_, ?_⟩
  · intro s hs
    have hs1 : s ∈ ((st.filter (recordMatches filt)).map toSummary).insertionSort
        newestFirst := List.mem_of_mem_take hs
    have hs2 : s ∈ (st.filter (recordMatches filt)).map toSummary :=
      (List.perm_insertionSort newestFirst _).mem_iff.mp hs1
    obtain ⟨j, hj, rfl⟩ := List.mem_map.mp hs2
    have hj2 := List.mem_filter.mp hj
    exact ⟨j, hj2.1, hj2.2, rfl⟩
  · intro h
    simp [list_jobs, h]
  · exact List.Pairwise.sublist (List.take_sublist _ _)
      (List.sorted_insertionSort newestFirst _)
  · intro h
    have hlen : (((st.filter (recordMatches filt)).map toSummary).insertionSort
        newestFirst).length ≤ limit := by
      rw [(List.perm_insertionSort newestFirst _).length_eq, List.length_map]
      exact h
    show ((((st.filter (recordMatches filt)).map toSummary).insertionSort
        newestFirst).take limit).Perm _
    rw [List.take_of_length_le hlen]
    exact List.perm_insertionSort newestFirst _

/-- Two queued records for the concrete `list_jobs` evaluation. -/
def c5JobA : JobRecord := { c3Job with job_id := "gen_old", status := .queued }

/-- The newer of the two records (created later). -/
def c5JobB : JobRecord :=
  { c3Job with job_id := "gen_new", status := .queued, created_at := 5 }

/-- Claim C5 witness: the properties instantiated on a concrete two-job
registry with limit 1, together with the concrete evaluation — the single
returned summary is the newer job's. -/
theorem C5_list_jobs_witness :
    ((list_jobs [c5JobA, c5JobB] 1 none).1.length ≤ 1 ∧
     (∀ s ∈ (list_jobs [c5JobA, c5JobB] 1 none).1,
        ∃ j, j ∈ [c5JobA, c5JobB] ∧ recordMatches none j = true ∧ toSummary j = s) ∧
     ([c5JobA, c5JobB].filter (recordMatches none) = [] →
        (list_jobs [c5JobA, c5JobB] 1 none).1 = []) ∧
     (list_jobs [c5JobA, c5JobB] 1 none).1.Sorted newestFirst ∧
     (([c5JobA, c5JobB].filter (recordMatches none)).length ≤ 1 →
        (list_jobs [c5JobA, c5JobB] 1 none).1.Perm
          (([c5JobA, c5JobB].filter (recordMatches none)).map toSummary))) ∧
    (list_jobs [c5JobA, c5JobB] 1 none).1 = [toSummary c5JobB] :=
  ⟨C5_list_jobs [c5JobA, c5JobB] 1 none, rfl⟩

/-! ## Claim C6 -/

/-- Claim C6: `download_result` fails with `NotFound` for a never-issued id
and for a completed job whose recorded artifact is absent or does not exist
on disk; it fails with `InvalidState` whenever the status is `queued`,
`processing`, `failed` or `cancelled`; and it returns the artifact exactly
when the job is completed and its artifact exists. -/
theorem C6_download (st : List JobRecord) (fe : String → Bool) (id : String) :
    (findJob st id = none → download_generated_audio st fe id = .error .notFound) ∧
    (∀ j, findJob st id = some j →
       (j.status = .queued ∨ j.status = .processing ∨ j.status = .failed ∨
        j.status = .cancelled) →
       download_generated_audio st fe id = .error .invalidState) ∧
    (∀ j, findJob st id = some j → j.status = .completed →
       (j.audio_path = none ∨ ∃ p, j.audio_path = some p ∧ (p = "" ∨ fe p = false)) →
       download_generated_audio st fe id = .error .notFound) ∧
    (∀ j p, findJob st id = some j → j.status = .completed → j.audio_path = some p →
       p ≠ "" → fe p = true → download_generated_audio st fe id = .ok p) ∧
    (∀ p, download_generated_audio st fe id = .ok p →
       ∃ j, findJob st id = some j ∧ j.status = .completed ∧ j.audio_path = some p ∧
         p ≠ "" ∧ fe p = true) := by
  refine ⟨?_, ?_, ?_, ?_, ?_⟩
  · intro h
    simp [download_generated_audio, h]
  · intro j hf hs
    have hnc : ¬j.status = .completed := by
      rcases hs with h | h | h | h <;> simp [h]
    simp [download_generated_audio, hf, hnc]
  · intro j hf hc hbad
    rcases hbad with h | ⟨p, hp, hor⟩
    · simp [download_generated_audio, hf, hc, h]
    · rcases hor with h | h <;> simp [download_generated_audio, hf, hc, hp, h]
  · intro j p hf hc hp hne hfe
    simp [download_generated_audio, hf, hc, hp, hne, hfe]
  · intro p hp
    cases hfind : findJob st id with
    | none =>
        rw [(by simp [download_generated_audio, hfind] :
          download_generated_audio st fe id = .error .notFound)] at hp
        exact absurd hp (by simp)
    | some j =>
        have heq : download_generated_audio st fe id =
            if j.status = .completed then
              match j.audio_path with
              | none => Except.error ApiError.notFound
              | some q =>
                  if q = "" ∨ fe q = false then Except.error ApiError.notFound
                  else Except.ok q
            else Except.error ApiError.invalidState := by
          simp only [download_generated_audio, hfind]
        rw [heq] at hp
        by_cases hc : j.status = .completed
        · rw [if_pos hc] at hp
          cases hap : j.audio_path with
          | none => rw [hap] at hp; exact absurd hp (by simp)
          | some q =>
              rw [hap] at hp
              replace hp : (if q = "" ∨ fe q = false then
                  Except.error ApiError.notFound else Except.ok q) = Except.ok p := hp
              by_cases hbad : q = "" ∨ fe q = false
              · rw [if_pos hbad] at hp; exact absurd hp (by simp)
              · rw [if_neg hbad] at hp
                push_neg at hbad
                have hq : q = p := by simpa using hp
                subst hq
                exact ⟨j, rfl, hc, hap, hbad.1, by simpa using hbad.2⟩
        · rw [if_neg hc] at hp
          exact absurd hp (by simp)

/-- A completed record with a recorded artifact path. -/
def c6Job : JobRecord :=
  { c3Job with job_id := "gen_c6", status := .completed
               audio_path := some "generated_audio/gen_c6.wav" }

/-- A file system on which exactly the recorded artifact exists. -/
def c6Fe : String → Bool := fun p => p == "generated_audio/gen_c6.wav"

/-- Claim C6 witness: on a concrete registry with a completed job whose
artifact exists, download succeeds and returns that artifact. -/
theorem C6_download_witness :
    download_generated_audio [c6Job] c6Fe "gen_c6" =
      .ok "generated_audio/gen_c6.wav" :=
  (C6_download [c6Job] c6Fe "gen_c6").2.2.2.1 c6Job
    "generated_audio/gen_c6.wav" rfl rfl rfl (by decide) rfl

/-! ## Claim C8 -/

/-- Claim C8: while the inference call is in flight the reporter emits
`N = 20` values, evenly time-spaced (each consecutive pair of emission times
differs by exactly `estimatedTime/steps`) over the estimated total time
`max(2·duration, 10)` derived from the requested duration, linearly
interpolated from the configured 0.3 towards the configured 0.75 (the last
emitted value is exactly 0.75); the emitted sequence is strictly increasing
and every emitted value is strictly below 1.0. -/
theorem C8_reporter (d : ℚ) (i : ℕ) :
    (i + 1 < reporterSteps → reporterProgress i < reporterProgress (i + 1)) ∧
    (i < reporterSteps → reporterProgress i < 1) ∧
    emissionTime d (i + 1) - emissionTime d i = estimatedTime d / reporterSteps ∧
    reporterProgress (reporterSteps - 1) = reporterEnd ∧
    reporterStart = 3/10 ∧ reporterEnd = 3/4 := by
  refine ⟨?_, ?_, ?_, ?_, rfl, rfl⟩
  · intro _
    unfold reporterProgress reporterStart reporterEnd reporterSteps
    push_cast
    linarith
  · intro h
    have h19 : i ≤ 19 := Nat.lt_succ_iff.mp h
    have hc : (i : ℚ) ≤ 19 := by exact_mod_cast h19
    unfold reporterProgress reporterStart reporterEnd reporterSteps
    push_cast
    linarith
  · unfold emissionTime
    push_cast
    ring
  · norm_num [reporterProgress, reporterStart, reporterEnd, reporterSteps]

/-- Claim C8 witness: the first two emitted values at requested duration 5
are strictly increasing, below 1.0, and the first two emission times are one
even step apart. -/
theorem C8_reporter_witness :
    reporterProgress 0 < reporterProgress (0 + 1) ∧ reporterProgress 0 < 1 ∧
    emissionTime 5 (0 + 1) - emissionTime 5 0 = estimatedTime 5 / reporterSteps := by
  have h := C8_reporter 5 0
  exact ⟨h.1 (by decide), h.2.1 (by decide), h.2.2.1⟩

/-! ## Claim C9 -/

/-- The reporter values are monotone in the step index. -/
lemma reporterProgress_mono {i j : ℕ} (h : i ≤ j) :
    reporterProgress i ≤ reporterProgress j := by
  have hc : (i : ℚ) ≤ (j : ℚ) := by exact_mod_cast h
  unfold reporterProgress reporterStart reporterEnd reporterSteps
  push_cast
  linarith

/-- Every reporter value of a step below 20 lies in [0.3, 0.75]. -/
lemma reporterProgress_bounds {i : ℕ} (h : i < reporterSteps) :
    3/10 ≤ reporterProgress i ∧ reporterProgress i ≤ 3/4 := by
  have h19 : i ≤ 19 := Nat.lt_succ_iff.mp h
  have hc : (i : ℚ) ≤ 19 := by exact_mod_cast h19
  have h0 : (0 : ℚ) ≤ (i : ℚ) := Nat.cast_nonneg i
  unfold reporterProgress reporterStart reporterEnd reporterSteps
  push_cast
  constructor <;> linarith

/-- Claim C9: on the success path, for any number `k` of reporter callbacks
that fire before the inference call resolves, the ordered sequence of progress
values written for the job — 0.0 at creation, 0.1 at dispatch, 0.3, the
reporter's interpolated values, 0.8, then 1.0 in the COMPLETED update — is
monotonically non-decreasing, and its last value (the progress a status query
reports once the job is completed) is exactly 1.0. -/
theorem C9_progress_monotone (k : ℕ) :
    (successProgressWrites k).Pairwise (· ≤ ·) ∧
    (successProgressWrites k).getLast? = some 1 := by
  have hmem : ∀ x ∈ (List.range (min k reporterSteps)).map reporterProgress,
      3/10 ≤ x ∧ x ≤ 3/4 := by
    intro x hx
    obtain ⟨i, hi, rfl⟩ := List.mem_map.mp hx
    exact reporterProgress_bounds
      (lt_of_lt_of_le (List.mem_range.mp hi) (min_le_right _ _))
  constructor
  · unfold successProgressWrites
    refine List.pairwise_append.mpr ⟨?_, ?_, ?_⟩
    · refine List.pairwise_append.mpr ⟨?_, ?_, ?_⟩
      · norm_num [List.pairwise_cons]
      · exact (List.pairwise_lt_range _).map reporterProgress
          (fun a b hab => reporterProgress_mono (le_of_lt hab))
      · intro a ha b hb
        have hb3 := (hmem b hb).1
        simp only [List.mem_cons, List.not_mem_nil, or_false] at ha
        rcases ha with rfl | rfl | rfl <;> linarith
    · norm_num [List.pairwise_cons]
    · intro a ha b hb
      simp only [List.mem_cons, List.not_mem_nil, or_false] at hb
      have ha34 : a ≤ 3/4 := by
        rcases List.mem_append.mp ha with ha | ha
        · simp only [List.mem_cons, List.not_mem_nil, or_false] at ha
          rcases ha with rfl | rfl | rfl <;> norm_num
        · exact (hmem a ha).2
      rcases hb with rfl | rfl <;> linarith
  · unfold successProgressWrites
    rw [show ([0, 1/10, 3/10] ++ (List.range (min k reporterSteps)).map reporterProgress
          ++ [(8:ℚ)/10, 1]) =
        (([0, 1/10, 3/10] ++ (List.range (min k reporterSteps)).map reporterProgress
          ++ [(8:ℚ)/10]) ++ [1]) from by simp]
    exact List.getLast?_concat _

/-- Claim C9 witness: the full write sequence with all 20 reporter steps is
non-decreasing and ends at exactly 1.0. -/
theorem C9_progress_monotone_witness :
    (successProgressWrites 20).Pairwise (· ≤ ·) ∧
    (successProgressWrites 20).getLast? = some 1 :=
  C9_progress_monotone 20

/-! ## Claim C10 -/

/-- Claim C10: both failure branches of the background unit apply
`failedUpdate`, which records the error, sets the fixed message
"Generation failed", and resets `progress` to 0.0 — so on a record whose last
written progress was the 0.8 pre-save value, the failure write strictly
decreases the observable progress. -/
theorem C10_failed_resets_progress (j : JobRecord) (tEnd : ℕ) (err : String) :
    (failedUpdate tEnd err j).status = .failed ∧
    (failedUpdate tEnd err j).progress = 0 ∧
    (failedUpdate tEnd err j).message = "Generation failed" ∧
    (failedUpdate tEnd err j).error_message = some err ∧
    (j.progress = 8/10 → (failedUpdate tEnd err j).progress < j.progress) := by
  refine ⟨rfl, rfl, rfl, rfl, fun h => ?_⟩
  rw [h]
  show (0 : ℚ) < 8/10
  norm_num

/-- A record observed right after the 0.8 pre-save write. -/
def c10Job : JobRecord := { c3Job with status := .processing, progress := 8/10 }

/-- Claim C10 witness: the failure write on a record at progress 0.8 yields
progress exactly 0.0, a strict drop. -/
theorem C10_failed_resets_progress_witness :
    (failedUpdate 3 "save failed" c10Job).progress = 0 ∧
    (failedUpdate 3 "save failed" c10Job).progress < c10Job.progress := by
  have h := C10_failed_resets_progress c10Job 3 "save failed"
  exact ⟨h.2.1, h.2.2.2.2 rfl⟩

end Stori
